import Mathlib

/-!
Shallow embedding of the job-application assistant repository
(wallet/referral ledger, profile skills state, jobs service, and the
auto-apply serverless function), together with theorems settling the
frozen claims about its specification.

Conventions used throughout:
* JS numbers appearing in the wallet logic are modelled as rationals;
  a possibly-NaN value (result of parseFloat on an arbitrary string)
  is modelled as an Option, with none standing for NaN, and the JS
  comparison operators returning false on NaN.
* A missing (undefined) string field and the empty string are both
  falsy in JS; where the source only ever tests such a field for
  truthiness before use, the two are collapsed to the empty string.
* External collaborators (auth, database reads/writes, the simulated
  submission coin flip) are modelled as explicit environment fields,
  so a single invocation of a handler is a pure function of its
  environment.
-/

namespace JobApp

/-! ## Wallet and referral ledger (part_001 fetchWalletData, part_002 fetchWalletBalance, UserProfileManagement.tsx loadWalletData) -/

/-- A row of the wallet_transactions table: signed amount and status. -/
structure WalletTx where
  amount : ℚ
  status : String
deriving DecidableEq, Repr

/-- The reduce((sum, t) => sum + parseFloat(t.amount), 0) fold over the
rows whose status is completed, shared by all three balance readers. -/
def completedFold (txs : List WalletTx) : ℚ :=
  (txs.filter (fun t => t.status == "completed")).foldl (fun s t => s + t.amount) 0

/-- part_001 fetchWalletData: balance over all rows for the user, clamped
with Math.max(0, balance). -/
def fetchWalletData_balance (txs : List WalletTx) : ℚ :=
  max 0 (completedFold txs)

/-- part_002 fetchWalletBalance: balance over all rows for the user,
stored without any clamp (setWalletBalance(balance)). -/
def fetchWalletBalance_balance (txs : List WalletTx) : ℚ :=
  completedFold txs

/-- UserProfileManagement.tsx loadWalletData: the query orders rows newest
first and applies .limit(20), so the balance is computed over at most the
20 newest rows, then clamped with Math.max(0, balance).  The argument is
the full transaction list of the user, newest first. -/
def loadWalletData_balance (txs : List WalletTx) : ℚ :=
  max 0 (completedFold (txs.take 20))

/-- The balance the specification describes: max(0, sum of amount over
all completed transactions of the user).  Written from the words of the
spec, to be compared with the three reader implementations. -/
def specGetBalance (txs : List WalletTx) : ℚ :=
  max 0 (((txs.filter (fun t => t.status == "completed")).map (fun t => t.amount)).sum)

/-! ## Redemption handlers (part_002 handleRedeemRequest, UserProfileManagement.tsx handleRedemption, part_001 handleRedeemSubmit) -/

/-- JS comparison a < b where a may be NaN (none): NaN compares false. -/
def jsLt (a : Option ℚ) (b : ℚ) : Bool :=
  match a with
  | none => false
  | some x => decide (x < b)

/-- JS comparison a > b where a may be NaN (none): NaN compares false. -/
def jsGt (a : Option ℚ) (b : ℚ) : Bool :=
  match a with
  | none => false
  | some x => decide (b < x)

/-- Observable outcome of one redemption-handler invocation: whether the
request was sent to the settlement collaborator, the error surfaced to
the user (if any), and whether the handler reported success. -/
structure RedeemResult where
  submitted : Bool
  errorMsg : Option String
  success : Bool
deriving DecidableEq, Repr

/-- part_002 handleRedeemRequest.  redeemAmount is the parseFloat of the
user-entered string (none = NaN); sessionOk models getSession returning a
usable token; submitOk models the send-redemption-email call succeeding. -/
def handleRedeemRequest (redeemAmount : Option ℚ) (walletBalance : ℚ)
    (redeemDetails : String) (sessionOk submitOk : Bool) : RedeemResult :=
  if jsLt redeemAmount 100 then
    ⟨false, some "Minimum redemption amount is ₹100.", false⟩
  else if jsGt redeemAmount walletBalance then
    ⟨false, some "Redemption amount exceeds wallet balance.", false⟩
  else if redeemDetails.trim == "" then
    ⟨false, some "Redemption details are required.", false⟩
  else if !sessionOk then
    ⟨false, some "Authentication required to redeem.", false⟩
  else if submitOk then
    ⟨true, none, true⟩
  else
    ⟨true, some "Failed to submit redemption request.", false⟩

/-- UserProfileManagement.tsx handleRedemption.  amount is the parseFloat
of the entered string (none = NaN); the fetch is made without a session
check (the token is read with optional chaining). -/
def handleRedemption (amount : Option ℚ) (walletBalance : ℚ)
    (submitOk : Bool) : RedeemResult :=
  if jsLt amount 100 then
    ⟨false, some "Minimum redemption amount is ₹100", false⟩
  else if jsGt amount walletBalance then
    ⟨false, some "Insufficient wallet balance", false⟩
  else if submitOk then
    ⟨true, none, true⟩
  else
    ⟨true, some "Redemption request failed", false⟩

/-- Method details entered in the part_001 redemption form. -/
structure RedeemDetails where
  upi_id : String
  bank_account : String
  ifsc_code : String
  account_holder_name : String
deriving DecidableEq, Repr

/-- part_001 handleRedeemSubmit.  This variant has no amount field: the
requested amount is the whole walletBalance, and the minimum check is
walletBalance < 100. -/
def handleRedeemSubmit (walletBalance : ℚ) (method : String)
    (d : RedeemDetails) (sessionOk submitOk : Bool) : RedeemResult :=
  if walletBalance < 100 then
    ⟨false, some "Minimum redemption amount is ₹100.", false⟩
  else if method == "upi" && d.upi_id == "" then
    ⟨false, some "UPI ID is required.", false⟩
  else if method != "upi"
      && (d.account_holder_name == "" || d.bank_account == "" || d.ifsc_code == "") then
    ⟨false, some "All bank transfer details are required.", false⟩
  else if !sessionOk then
    ⟨false, some "No active session found for redemption.", false⟩
  else if submitOk then
    ⟨true, none, true⟩
  else
    ⟨true, some "Failed to submit redemption request.", false⟩

/-! ## Skill categories (part_001 profile state helpers and onSubmit cleaning) -/

/-- A skill category: name, cached count, and the skill list.  The count
field is maintained by hand at every mutation site in the source. -/
structure Skill where
  category : String
  count : ℕ
  list : List String
deriving DecidableEq, Repr

/-- In-place update of the i-th element of a list (no-op out of range),
modelling updated[index] = f(updated[index]). -/
def modifyAt (l : List α) (i : ℕ) (f : α → α) : List α :=
  match l, i with
  | [], _ => []
  | x :: xs, 0 => f x :: xs
  | x :: xs, n + 1 => x :: modifyAt xs n f

/-- part_001 addSkillCategory: appends an empty category with count 0. -/
def addSkillCategory (skills : List Skill) : List Skill :=
  skills ++ [⟨"", 0, []⟩]

/-- part_001 updateSkillCategory with a field other than list (the
component only ever calls it with the category field). -/
def updateSkillCategoryCategory (skills : List Skill) (i : ℕ) (v : String) : List Skill :=
  modifyAt skills i (fun s => { s with category := v })

/-- part_001 updateSkillCategory with the list field: replaces the list
and sets count to value.length. -/
def updateSkillCategoryList (skills : List Skill) (i : ℕ) (v : List String) : List Skill :=
  modifyAt skills i (fun s => { s with list := v, count := v.length })

/-- part_001 addSkillToCategory: when the skill trims non-empty, pushes
the trimmed skill and re-derives count from the list length. -/
def addSkillToCategory (skills : List Skill) (i : ℕ) (skill : String) : List Skill :=
  if skill.trim == "" then skills
  else
    modifyAt skills i (fun s =>
      { s with list := s.list ++ [skill.trim], count := (s.list ++ [skill.trim]).length })

/-- part_001 removeSkillFromCategory: splices out the j-th skill and
re-derives count from the list length. -/
def removeSkillFromCategory (skills : List Skill) (i j : ℕ) : List Skill :=
  modifyAt skills i (fun s =>
    { s with list := s.list.eraseIdx j, count := (s.list.eraseIdx j).length })

/-- part_001 onSubmit cleanedSkills: drops categories whose name trims
empty or whose list has no non-blank skill, then removes blank skills and
recomputes count from the filtered list. -/
def cleanedSkills (skills : List Skill) : List Skill :=
  (skills.filter (fun s => s.category.trim != "" && s.list.any (fun x => x.trim != ""))).map
    (fun s =>
      { s with list := s.list.filter (fun x => x.trim != ""),
               count := (s.list.filter (fun x => x.trim != "")).length })

/-- The derived-cache invariant: every category has count = list.length. -/
def skillInv (skills : List Skill) : Prop :=
  ∀ s ∈ skills, s.count = s.list.length

instance (skills : List Skill) : Decidable (skillInv skills) := by
  unfold skillInv; infer_instance

/-! ## JobsService (part_000): manual application logging, optimized
resume storage, job listing creation; AdminRoute.tsx job intake schema -/

/-- An authenticated session, as returned by supabase.auth.getSession:
the only part the service code uses is session.user.id. -/
structure Session where
  userId : String
deriving DecidableEq, Repr

/-- A row of manual_apply_logs as inserted by logManualApplication. -/
structure ManualRow where
  user_id : String
  job_listing_id : String
  optimized_resume_id : String
  application_date : String
  status : String
  redirect_url : String
deriving DecidableEq, Repr

/-- JobsService.logManualApplication: requires a session, then inserts
exactly one manual_apply_logs row with the fixed status submitted and the
provided redirect URL.  insertOk models the insert write succeeding; now
models new Date().toISOString(); the store is the current table content. -/
def logManualApplication (session : Option Session) (insertOk : Bool)
    (now jobId optimizedResumeId redirectUrl : String)
    (store : List ManualRow) : Except String Unit × List ManualRow :=
  match session with
  | none => (.error "Authentication required", store)
  | some s =>
    if insertOk then
      (.ok (),
        store ++ [{ user_id := s.userId, job_listing_id := jobId,
                    optimized_resume_id := optimizedResumeId,
                    application_date := now, status := "submitted",
                    redirect_url := redirectUrl }])
    else (.error "Failed to log manual application", store)

/-- A row of optimized_resumes as inserted by storeOptimizedResume. -/
structure StoredResumeRow where
  id : String
  user_id : String
  job_listing_id : String
  resume_content : String
  pdf_url : String
  docx_url : String
  optimization_score : ℕ
deriving DecidableEq, Repr

/-- JobsService.storeOptimizedResume.  The source performs NO session
check: it takes userId as an argument and inserts directly.  The session
parameter records the ambient auth state available to the client and is
deliberately unused, mirroring that deliberate absence.  score models the
Math.floor(Math.random() * 20) + 80 draw, newId the id the database
assigns to the inserted row. -/
def storeOptimizedResume (_session : Option Session) (insertOk : Bool)
    (newId : String) (score : ℕ) (userId jobId resumeData : String)
    (store : List StoredResumeRow) : Except String String × List StoredResumeRow :=
  if insertOk then
    (.ok newId,
      store ++ [{ id := newId, user_id := userId, job_listing_id := jobId,
                  resume_content := resumeData,
                  pdf_url := "https://example.com/resumes/optimized_" ++ userId ++ "_" ++ jobId ++ ".pdf",
                  docx_url := "https://example.com/resumes/optimized_" ++ userId ++ "_" ++ jobId ++ ".docx",
                  optimization_score := score }])
  else (.error "Failed to store optimized resume", store)

/-- Admin job intake as typed by the form: every field optional, since
Partial JobListing is what reaches the validation and the service. -/
structure JobIntake where
  company_name : Option String
  company_logo_url : Option String
  role_title : Option String
  package_amount : Option ℚ
  package_type : Option String
  domain : Option String
  location_type : Option String
  location_city : Option String
  experience_required : Option String
  qualification : Option String
  short_description : Option String
  full_description : Option String
  application_link : Option String
  is_active : Option Bool
deriving DecidableEq, Repr

/-- z.string().min(n, msg): missing fails as Required, a string shorter
than n fails with the configured message. -/
def minLenStr (fieldName msg : String) (n : ℕ) (o : Option String) : List (String × String) :=
  match o with
  | none => [(fieldName, "Required")]
  | some s => if s.length < n then [(fieldName, msg)] else []

/-- z.string().min(1, msg). -/
def reqStr (fieldName msg : String) (o : Option String) : List (String × String) :=
  minLenStr fieldName msg 1 o

/-- z.string().url(msg): missing fails as Required, otherwise the string
must satisfy the URL check (modelled by the isUrl parameter). -/
def reqUrl (fieldName msg : String) (isUrl : String → Bool) (o : Option String) :
    List (String × String) :=
  match o with
  | none => [(fieldName, "Required")]
  | some s => if isUrl s then [] else [(fieldName, msg)]

/-- z.string().url(msg).optional().or(z.literal(empty)): accepted when
missing, a valid URL, or the empty string. -/
def optUrl (fieldName msg : String) (isUrl : String → Bool) (o : Option String) :
    List (String × String) :=
  match o with
  | none => []
  | some s => if isUrl s then [] else if s == "" then [] else [(fieldName, msg)]

/-- z.number().positive(msg).optional(). -/
def optPos (fieldName msg : String) (o : Option ℚ) : List (String × String) :=
  match o with
  | none => []
  | some a => if 0 < a then [] else [(fieldName, msg)]

/-- z.enum(allowed).optional(). -/
def optEnum (fieldName : String) (allowed : List String) (o : Option String) :
    List (String × String) :=
  match o with
  | none => []
  | some s => if allowed.contains s then [] else [(fieldName, "Invalid enum value")]

/-- z.enum(allowed) (required). -/
def reqEnum (fieldName : String) (allowed : List String) (o : Option String) :
    List (String × String) :=
  match o with
  | none => [(fieldName, "Required")]
  | some s => if allowed.contains s then [] else [(fieldName, "Invalid enum value")]

/-- AdminRoute.tsx jobListingSchema: field-level validation errors of the
job intake form, keyed by field name.  isUrl abstracts the URL
well-formedness check performed by z.string().url(). -/
def validateJobListing (isUrl : String → Bool) (d : JobIntake) : List (String × String) :=
  reqStr "company_name" "Company name is required" d.company_name ++
  optUrl "company_logo_url" "Must be a valid URL" isUrl d.company_logo_url ++
  reqStr "role_title" "Role title is required" d.role_title ++
  optPos "package_amount" "Package amount must be positive" d.package_amount ++
  optEnum "package_type" ["CTC", "stipend", "hourly"] d.package_type ++
  reqStr "domain" "Domain is required" d.domain ++
  reqEnum "location_type" ["Remote", "Onsite", "Hybrid"] d.location_type ++
  reqStr "experience_required" "Experience requirement is required" d.experience_required ++
  reqStr "qualification" "Qualification is required" d.qualification ++
  minLenStr "short_description" "Short description must be at least 50 characters" 50 d.short_description ++
  minLenStr "full_description" "Full description must be at least 100 characters" 100 d.full_description ++
  reqUrl "application_link" "Must be a valid URL" isUrl d.application_link

/-- JS x || undefined on an optional string: empty collapses to absent. -/
def jsOrNone (o : Option String) : Option String :=
  match o with
  | none => none
  | some s => if s == "" then none else some s

/-- JS x || undefined on an optional number: zero collapses to absent. -/
def jsOrNoneQ (o : Option ℚ) : Option ℚ :=
  match o with
  | none => none
  | some a => if a = 0 then none else some a

/-- The Partial JobListing that JobUploadForm.onSubmit builds from the
validated form data and passes to jobsService.createJobListing. -/
def formToJobData (d : JobIntake) : JobIntake :=
  { company_name := some (d.company_name.getD ""),
    company_logo_url := jsOrNone d.company_logo_url,
    role_title := some (d.role_title.getD ""),
    package_amount := jsOrNoneQ d.package_amount,
    package_type := jsOrNone d.package_type,
    domain := some (d.domain.getD ""),
    location_type := some (d.location_type.getD ""),
    location_city := jsOrNone d.location_city,
    experience_required := some (d.experience_required.getD ""),
    qualification := some (d.qualification.getD ""),
    short_description := some (d.short_description.getD ""),
    full_description := some (d.full_description.getD ""),
    application_link := some (d.application_link.getD ""),
    is_active := some (d.is_active.getD true) }

/-- A row of job_listings as inserted by createJobListing. -/
structure JobRow where
  company_name : String
  company_logo_url : Option String
  role_title : String
  package_amount : Option ℚ
  package_type : Option String
  domain : String
  location_type : String
  location_city : Option String
  experience_required : String
  qualification : String
  short_description : String
  full_description : String
  application_link : String
  posted_date : String
  source_api : String
  is_active : Bool
deriving DecidableEq, Repr

/-- Errors of the admin job intake path. -/
inductive JobCreateError where
  | validation (errs : List (String × String))
  | missingFields
  | unauthenticated
  | persistence
deriving DecidableEq, Repr

/-- JS truthiness of an optional string field. -/
def truthyStr (o : Option String) : Bool :=
  match o with
  | none => false
  | some s => s != ""

/-- The truthiness test on the nine required fields of the service-side
guard in createJobListing. -/
def requiredFieldsTruthy (jobData : JobIntake) : Bool :=
  truthyStr jobData.company_name && truthyStr jobData.role_title
    && truthyStr jobData.domain && truthyStr jobData.location_type
    && truthyStr jobData.experience_required && truthyStr jobData.qualification
    && truthyStr jobData.short_description && truthyStr jobData.full_description
    && truthyStr jobData.application_link

/-- JobsService.createJobListing: rejects when any of the nine required
fields is absent or empty (one blanket error), requires a session, then
inserts a row with posted_date = now, source_api = manual_admin and
is_active defaulting to true when not explicitly set.  dbOk models the
insert write succeeding. -/
def createJobListing (session : Option Session) (now : String) (dbOk : Bool)
    (jobData : JobIntake) (store : List JobRow) :
    Except JobCreateError JobRow × List JobRow :=
  if !requiredFieldsTruthy jobData then
    (.error .missingFields, store)
  else
    match session with
    | none => (.error .unauthenticated, store)
    | some _ =>
      let row : JobRow :=
        { company_name := jobData.company_name.getD "",
          company_logo_url := jsOrNone jobData.company_logo_url,
          role_title := jobData.role_title.getD "",
          package_amount := jsOrNoneQ jobData.package_amount,
          package_type := jsOrNone jobData.package_type,
          domain := jobData.domain.getD "",
          location_type := jobData.location_type.getD "",
          location_city := jsOrNone jobData.location_city,
          experience_required := jobData.experience_required.getD "",
          qualification := jobData.qualification.getD "",
          short_description := jobData.short_description.getD "",
          full_description := jobData.full_description.getD "",
          application_link := jobData.application_link.getD "",
          posted_date := now,
          source_api := "manual_admin",
          is_active := jobData.is_active.getD true }
      if dbOk then (.ok row, store ++ [row]) else (.error .persistence, store)

/-- The whole admin job intake operation: the form-level schema
validation, then onSubmit building the Partial JobListing, then
JobsService.createJobListing. -/
def submitJobListing (isUrl : String → Bool) (session : Option Session)
    (now : String) (dbOk : Bool) (d : JobIntake) (store : List JobRow) :
    Except JobCreateError JobRow × List JobRow :=
  let errs := validateJobListing isUrl d
  if errs = [] then createJobListing session now dbOk (formToJobData d) store
  else (.error (.validation errs), store)

/-! ## The auto-apply serverless function (supabase/functions/auto-apply/index.ts) -/

/-- The parts of a job_listings row the handler uses. -/
structure Job where
  id : String
  application_link : String
deriving DecidableEq, Repr

/-- A row returned by the get_user_auto_apply_profile stored procedure
(payload columns are opaque strings here). -/
structure ProfileRow where
  full_name : String
  email_address : String
  phone : String
  linkedin_profile_url : String
  github_profile_url : String
  resume_headline : String
  current_location : String
  education_details : String
  experience_details : String
  skills_details : String
deriving DecidableEq, Repr

/-- The form_data_snapshot object built at insert time. -/
structure FormSnapshot where
  full_name : String
  email : String
  phone : String
  linkedin : String
  github : String
  headline : String
  location : String
  education : String
  experience : String
  skills : String
deriving DecidableEq, Repr

/-- The snapshot captured from the profile row at insert time. -/
def mkSnapshot (p : ProfileRow) : FormSnapshot :=
  { full_name := p.full_name, email := p.email_address, phone := p.phone,
    linkedin := p.linkedin_profile_url, github := p.github_profile_url,
    headline := p.resume_headline, location := p.current_location,
    education := p.education_details, experience := p.experience_details,
    skills := p.skills_details }

/-- A row of optimized_resumes as read by the handler. -/
structure ResumeRow where
  id : String
  user_id : String
  pdf_url : String
deriving DecidableEq, Repr

/-- A row of auto_apply_logs. -/
structure AALogEntry where
  id : String
  user_id : String
  job_listing_id : String
  optimized_resume_id : String
  application_date : String
  status : String
  form_data_snapshot : FormSnapshot
  screenshot_url : Option String
  error_message : Option String
deriving DecidableEq, Repr

/-- The parsed POST body.  A missing jobId or optimizedResumeId is
collapsed to the empty string: the code only tests the fields for JS
truthiness before rejecting, so undefined and empty behave alike. -/
structure AABody where
  jobId : String
  optimizedResumeId : String
deriving DecidableEq, Repr

/-- The JSON response of one handler invocation. -/
structure AAResponse where
  statusCode : ℕ
  success : Bool
  message : Option String
  applicationId : Option String
  status : Option String
  screenshotUrl : Option String
  resumeUrl : Option String
  error : Option String
  fallbackUrl : Option String
deriving DecidableEq, Repr

/-- The environment of one POST invocation: the request, and the
behaviour of every external collaborator the handler calls. -/
structure AAEnv where
  /-- req.json(): none models the parse throwing. -/
  body : Option AABody
  authHeader : Option String
  /-- supabase.auth.getUser on the bearer token: none models an error or
  a missing user. -/
  getUser : String → Option String
  /-- job_listings .eq(id).single(): none models an error or no row. -/
  jobLookup : String → Option Job
  /-- get_user_auto_apply_profile rpc: none models an error. -/
  profileRpc : String → Option (List ProfileRow)
  /-- is_profile_complete_for_auto_apply rpc: none models an error. -/
  completeRpc : String → Option Bool
  /-- Content of optimized_resumes. -/
  resumes : List ResumeRow
  /-- Whether the pending-log insert write succeeds. -/
  insertOk : Bool
  /-- The id the database assigns to the inserted log row. -/
  newLogId : String
  /-- new Date().toISOString() at insert time. -/
  now : String
  /-- The Math.random() > 0.3 coin flip of the simulated submission. -/
  applySuccess : Bool
  /-- Whether the final status-update write succeeds. -/
  updateOk : Bool

/-- authHeader.replace of the Bearer prefix with the empty string: for
the header shapes that occur (Bearer token, or a bare token) this strips
the leading prefix when present. -/
def stripBearer (h : String) : String :=
  if h.take 7 = "Bearer " then h.drop 7 else h

/-- .eq(id).eq(user_id).single() over optimized_resumes: exactly one
matching row, else an error. -/
def singleResume (rs : List ResumeRow) (rid uid : String) : Option ResumeRow :=
  match rs.filter (fun r => r.id == rid && r.user_id == uid) with
  | [r] => some r
  | _ => none

/-- The data gathered once every precondition has passed. -/
structure AAPassData where
  uid : String
  job : Job
  profile : ProfileRow
  resume : ResumeRow
  jobId : String
  resumeId : String
deriving Repr

/-- The precondition chain of the handler, in source order; an error is
the message of the Error the code throws (caught by the outer catch
before any auto_apply_logs row exists).  The none body stands for
req.json() throwing; the outer catch then surfaces the parse error
message, summarised here by the 500 fallback text. -/
def checkPreconditions (env : AAEnv) : Except String AAPassData :=
  match env.body with
  | none => .error "Internal server error"
  | some b =>
    if b.jobId == "" || b.optimizedResumeId == "" then
      .error "Missing jobId or optimizedResumeId"
    else
      match env.authHeader with
      | none => .error "No authorization header"
      | some h =>
        match env.getUser (stripBearer h) with
        | none => .error "Invalid user token"
        | some uid =>
          match env.jobLookup b.jobId with
          | none => .error "Job not found"
          | some job =>
            match env.profileRpc uid with
            | none => .error "User profile not found or incomplete"
            | some [] => .error "User profile not found or incomplete"
            | some (profile :: _) =>
              match env.completeRpc uid with
              | none =>
                .error "User profile is incomplete for auto-apply. Please complete your profile first."
              | some false =>
                .error "User profile is incomplete for auto-apply. Please complete your profile first."
              | some true =>
                match singleResume env.resumes b.optimizedResumeId uid with
                | none => .error "Optimized resume not found"
                | some resume =>
                  .ok { uid := uid, job := job, profile := profile, resume := resume,
                        jobId := b.jobId, resumeId := b.optimizedResumeId }

/-- The response the outer catch builds from a thrown message. -/
def errResponse (m : String) : AAResponse :=
  { statusCode := 500, success := false, message := none, applicationId := none,
    status := none, screenshotUrl := none, resumeUrl := none,
    error := some m, fallbackUrl := none }

/-- What one POST invocation leaves behind: the response, the pending row
as first inserted (none when no insert happened), and the state of that
row in the store when the handler returns. -/
structure AAOutcome where
  response : AAResponse
  inserted : Option AALogEntry
  final : Option AALogEntry
deriving Repr

/-- The error message written on the simulated failure path. -/
def simFailureMsg : String :=
  "Simulated application failure - website may be down or changed"

/-- The part of the handler after the preconditions: insert the pending
row (whose failure throws to the outer catch before any row exists), run
the simulated submission, and issue the status update, which changes the
stored row only when the update write succeeds (an update error is only
logged).  The inner catch of the source is unreachable here: nothing in
the simulated block can throw. -/
def afterInsert (env : AAEnv) (pd : AAPassData) : AAOutcome :=
  if !env.insertOk then
    { response := errResponse "Failed to initiate auto-apply process",
      inserted := none, final := none }
  else
    let entry : AALogEntry :=
      { id := env.newLogId, user_id := pd.uid, job_listing_id := pd.jobId,
        optimized_resume_id := pd.resumeId, application_date := env.now,
        status := "pending", form_data_snapshot := mkSnapshot pd.profile,
        screenshot_url := none, error_message := none }
    if env.applySuccess then
      let shot := "https://example.com/screenshots/success_" ++ env.newLogId ++ ".png"
      { response :=
          { statusCode := 200, success := true,
            message := some "Application submitted successfully",
            applicationId := some env.newLogId, status := some "submitted",
            screenshotUrl := some shot, resumeUrl := some pd.resume.pdf_url,
            error := none, fallbackUrl := none },
        inserted := some entry,
        final := some (if env.updateOk then
          { entry with status := "submitted", screenshot_url := some shot }
        else entry) }
    else
      { response :=
          { statusCode := 400, success := false,
            message := some "Auto-apply failed. Please try manual apply.",
            applicationId := some env.newLogId, status := some "failed",
            screenshotUrl := none, resumeUrl := some pd.resume.pdf_url,
            error := some simFailureMsg,
            fallbackUrl := some pd.job.application_link },
        inserted := some entry,
        final := some (if env.updateOk then
          { entry with status := "failed", error_message := some simFailureMsg }
        else entry) }

/-- One POST invocation of the auto-apply handler. -/
def autoApply (env : AAEnv) : AAOutcome :=
  match checkPreconditions env with
  | .error m => { response := errResponse m, inserted := none, final := none }
  | .ok pd => afterInsert env pd

/-- Whether the invocation gets past every precondition. -/
def preconditionsPass (env : AAEnv) : Bool :=
  match checkPreconditions env with
  | .ok _ => true
  | .error _ => false

/-- JobsService.autoApplyForJob, the client wrapper: with no session it
throws before the edge function is even called; the catch rewraps the
message.  fetchResult models the parsed edge-function response. -/
def autoApplyForJob (session : Option Session) (fetchResult : AAResponse) :
    Except String AAResponse × Bool :=
  match session with
  | none => (.error "Auto-apply failed", false)
  | some _ => (.ok fetchResult, true)

/-! ## Concrete example inputs used by counterexamples and witnesses -/

/-- A simple stand-in for the opaque URL well-formedness check. -/
def exIsUrl (s : String) : Bool := s.startsWith "http"

def exJob : Job := { id := "job1", application_link := "https://jobs.example.com/apply" }

def exProfile : ProfileRow :=
  { full_name := "Asha Rao", email_address := "asha@example.com",
    phone := "+911234567890", linkedin_profile_url := "https://linkedin.com/in/asha",
    github_profile_url := "https://github.com/asha", resume_headline := "Engineer",
    current_location := "Bengaluru", education_details := "edu",
    experience_details := "exp", skills_details := "skills" }

def exResume : ResumeRow := { id := "res1", user_id := "user1", pdf_url := "https://example.com/r.pdf" }

/-- A healthy environment for the auto-apply handler: every precondition
passes, the insert and update writes succeed, the coin flip succeeds. -/
def baseEnv : AAEnv :=
  { body := some { jobId := "job1", optimizedResumeId := "res1" },
    authHeader := some "Bearer tok",
    getUser := fun t => if t == "tok" then some "user1" else none,
    jobLookup := fun j => if j == "job1" then some exJob else none,
    profileRpc := fun u => if u == "user1" then some [exProfile] else none,
    completeRpc := fun u => if u == "user1" then some true else none,
    resumes := [exResume],
    insertOk := true, newLogId := "log1", now := "2026-01-01T00:00:00Z",
    applySuccess := true, updateOk := true }

/-- The pass data baseEnv yields. -/
def exPassData : AAPassData :=
  { uid := "user1", job := exJob, profile := exProfile, resume := exResume,
    jobId := "job1", resumeId := "res1" }

/-- The pending row baseEnv inserts. -/
def exPendingEntry : AALogEntry :=
  { id := "log1", user_id := "user1", job_listing_id := "job1",
    optimized_resume_id := "res1", application_date := "2026-01-01T00:00:00Z",
    status := "pending", form_data_snapshot := mkSnapshot exProfile,
    screenshot_url := none, error_message := none }

/-- The row after the successful-submission update in baseEnv. -/
def exSubmittedEntry : AALogEntry :=
  { exPendingEntry with
    status := "submitted",
    screenshot_url := some "https://example.com/screenshots/success_log1.png" }

/-- baseEnv with the final status-update write failing. -/
def c1Env : AAEnv := { baseEnv with updateOk := false }

/-- baseEnv with a failing simulated submission and a failing final
status-update write. -/
def c6Env : AAEnv := { baseEnv with applySuccess := false, updateOk := false }

/-- baseEnv with a failing simulated submission and healthy writes. -/
def c6wEnv : AAEnv := { baseEnv with applySuccess := false }

/-- baseEnv with the request missing its authorization header. -/
def envNoAuth : AAEnv := { baseEnv with authHeader := none }

/-- A job intake that is valid except for the missing application_link. -/
def exIntakeNoLink : JobIntake :=
  { company_name := some "Acme Systems", company_logo_url := none,
    role_title := some "Software Engineer", package_amount := some 1200000,
    package_type := some "CTC", domain := some "SDE",
    location_type := some "Remote", location_city := none,
    experience_required := some "0-1 years", qualification := some "BTech",
    short_description := some "Build and maintain web services for the Acme platform team.",
    full_description := some "Acme Systems is hiring an engineer to build and operate web services, collaborate with product, and own features end to end across the stack.",
    application_link := none, is_active := none }

/-- The same job intake with the application link supplied. -/
def exIntakeValid : JobIntake :=
  { exIntakeNoLink with application_link := some "https://jobs.acme.example/apply" }

/-! # Theorems -/

/-! ## Auxiliary lemmas -/

theorem completedFold_eq_sum_aux (l : List WalletTx) (a : ℚ) :
    l.foldl (fun s t => s + t.amount) a = a + (l.map (fun t => t.amount)).sum := by
  induction l generalizing a with
  | nil => simp
  | cons x xs ih => simp [List.foldl_cons, ih, add_assoc]

theorem completedFold_eq_sum (txs : List WalletTx) :
    completedFold txs
      = ((txs.filter (fun t => t.status == "completed")).map (fun t => t.amount)).sum := by
  simpa using completedFold_eq_sum_aux (txs.filter (fun t => t.status == "completed")) 0

theorem skillInv_modifyAt {l : List Skill} {i : ℕ} {f : Skill → Skill}
    (hf : ∀ s, s.count = s.list.length → (f s).count = (f s).list.length)
    (h : skillInv l) : skillInv (modifyAt l i f) := by
  induction l generalizing i with
  | nil => intro s hs; cases hs
  | cons x xs ih =>
    cases i with
    | zero =>
      intro s hs
      rcases List.mem_cons.mp hs with h1 | h2
      · exact h1 ▸ hf x (h x (List.mem_cons_self x xs))
      · exact h s (List.mem_cons_of_mem x h2)
    | succ n =>
      intro s hs
      rcases List.mem_cons.mp hs with h1 | h2
      · exact h1 ▸ h x (List.mem_cons_self x xs)
      · exact ih (fun t ht => h t (List.mem_cons_of_mem x ht)) s h2

theorem minLenStr_eq_nil {f m : String} {n : ℕ} {o : Option String}
    (h : minLenStr f m n o = []) : ∃ s, o = some s ∧ n ≤ s.length := by
  cases o with
  | none => simp [minLenStr] at h
  | some s =>
    rcases Nat.lt_or_ge s.length n with hlt | hge
    · simp [minLenStr, hlt] at h
    · exact ⟨s, rfl, hge⟩

theorem reqStr_eq_nil {f m : String} {o : Option String}
    (h : reqStr f m o = []) : ∃ s, o = some s ∧ 1 ≤ s.length :=
  minLenStr_eq_nil h

theorem reqUrl_eq_nil {f m : String} {isUrl : String → Bool} {o : Option String}
    (h : reqUrl f m isUrl o = []) : ∃ s, o = some s ∧ isUrl s = true := by
  cases o with
  | none => simp [reqUrl] at h
  | some s =>
    cases hu : isUrl s with
    | false => simp [reqUrl, hu] at h
    | true => exact ⟨s, rfl, hu⟩

theorem optUrl_eq_nil {f m : String} {isUrl : String → Bool} {o : Option String}
    (h : optUrl f m isUrl o = []) : ∀ s, o = some s → s = "" ∨ isUrl s = true := by
  intro s hs
  subst hs
  cases hu : isUrl s with
  | true => exact Or.inr rfl
  | false =>
    by_cases he : s = ""
    · exact Or.inl he
    · exfalso; simp [optUrl, hu, he] at h

theorem optPos_eq_nil {f m : String} {o : Option ℚ}
    (h : optPos f m o = []) : ∀ a, o = some a → 0 < a := by
  intro a ha
  subst ha
  by_contra hn
  simp [optPos, hn] at h

theorem reqEnum_eq_nil {f : String} {allowed : List String} {o : Option String}
    (h : reqEnum f allowed o = []) : ∃ s, o = some s ∧ allowed.contains s = true := by
  cases o with
  | none => simp [reqEnum] at h
  | some s =>
    cases hc : allowed.contains s with
    | false =>
      simp only [reqEnum, hc, Bool.false_eq_true, if_false] at h
      exact absurd h (by simp)
    | true => exact ⟨s, rfl, hc⟩

/-! ## Claim C3: displayed wallet balance -/

/-- C3 counterexample: part_002 fetchWalletBalance omits the
Math.max(0, ...) clamp, so a user whose completed transactions sum to a
negative amount sees that negative sum, not max(0, sum) as claimed. -/
theorem C3_balance_counterexample :
    fetchWalletBalance_balance [{ amount := -5, status := "completed" }] ≠
      specGetBalance [{ amount := -5, status := "completed" }] := by
  norm_num [fetchWalletBalance_balance, completedFold, specGetBalance, max_def]

/-- C3 (corrected): what each wallet read actually displays.
part_001 fetchWalletData equals the specified max(0, sum over all
completed transactions); part_002 fetchWalletBalance is the same sum
without the zero clamp; UserProfileManagement.tsx loadWalletData clamps
at zero but sums only the 20 newest transactions because its query
carries .limit(20). -/
theorem C3_balance_amended (txs : List WalletTx) :
    fetchWalletData_balance txs = specGetBalance txs ∧
    fetchWalletBalance_balance txs
      = ((txs.filter (fun t => t.status == "completed")).map (fun t => t.amount)).sum ∧
    loadWalletData_balance txs
      = max 0 ((((txs.take 20).filter (fun t => t.status == "completed")).map
          (fun t => t.amount)).sum) := by
  refine ⟨?_, ?_, ?_⟩ <;>
    simp [fetchWalletData_balance, specGetBalance, fetchWalletBalance_balance,
      loadWalletData_balance, completedFold_eq_sum]

/-! ## Claim C4: minimum redemption amount -/

/-- C4: in all three redemption handlers, a requested amount below 100
(for part_001 handleRedeemSubmit the requested amount is the wallet
balance itself) is rejected with the minimum-amount error, whatever the
balance, and nothing is sent to the settlement collaborator. -/
theorem C4_below_minimum_rejected (a : ℚ) (ha : a < 100) (bal : ℚ)
    (details : String) (s1 s2 : Bool) (bal2 : ℚ) (hbal2 : bal2 < 100)
    (method : String) (bd : RedeemDetails) :
    handleRedeemRequest (some a) bal details s1 s2 =
      { submitted := false, errorMsg := some "Minimum redemption amount is ₹100.", success := false } ∧
    handleRedemption (some a) bal s2 =
      { submitted := false, errorMsg := some "Minimum redemption amount is ₹100", success := false } ∧
    handleRedeemSubmit bal2 method bd s1 s2 =
      { submitted := false, errorMsg := some "Minimum redemption amount is ₹100.", success := false } := by
  have h1 : jsLt (some a) 100 = true := by simp [jsLt, ha]
  refine ⟨?_, ?_, ?_⟩
  · simp [handleRedeemRequest, h1]
  · simp [handleRedemption, h1]
  · simp [handleRedeemSubmit, hbal2]

/-- C4 witness at a concrete below-minimum request. -/
theorem C4_below_minimum_rejected_witness :
    handleRedeemRequest (some 50) 1000 "upi payee" true true =
      { submitted := false, errorMsg := some "Minimum redemption amount is ₹100.", success := false } ∧
    handleRedeemSubmit 50 "upi" { upi_id := "a@upi", bank_account := "", ifsc_code := "", account_holder_name := "" } true true =
      { submitted := false, errorMsg := some "Minimum redemption amount is ₹100.", success := false } :=
  ⟨(C4_below_minimum_rejected 50 (by decide) 1000 "upi payee" true true 50 (by decide)
      "upi" { upi_id := "a@upi", bank_account := "", ifsc_code := "", account_holder_name := "" }).1,
   (C4_below_minimum_rejected 50 (by decide) 1000 "upi payee" true true 50 (by decide)
      "upi" { upi_id := "a@upi", bank_account := "", ifsc_code := "", account_holder_name := "" }).2.2⟩

/-! ## Claim C9: manual application logging appends without dedup -/

/-- C9: a successful logManualApplication call appends exactly one row
with status submitted and the provided redirect URL; an identical second
call appends a second row, so two calls leave two rows (no dedup). -/
theorem C9_manual_log_append_no_dedup (s : Session)
    (now jobId resumeId redirectUrl : String) (store : List ManualRow) :
    (logManualApplication (some s) true now jobId resumeId redirectUrl store).1 = .ok () ∧
    (logManualApplication (some s) true now jobId resumeId redirectUrl store).2 =
      store ++ [{ user_id := s.userId, job_listing_id := jobId,
                  optimized_resume_id := resumeId, application_date := now,
                  status := "submitted", redirect_url := redirectUrl }] ∧
    (logManualApplication (some s) true now jobId resumeId redirectUrl
        (logManualApplication (some s) true now jobId resumeId redirectUrl store).2).2 =
      store ++ [{ user_id := s.userId, job_listing_id := jobId,
                  optimized_resume_id := resumeId, application_date := now,
                  status := "submitted", redirect_url := redirectUrl },
                { user_id := s.userId, job_listing_id := jobId,
                  optimized_resume_id := resumeId, application_date := now,
                  status := "submitted", redirect_url := redirectUrl }] ∧
    (logManualApplication (some s) true now jobId resumeId redirectUrl
        (logManualApplication (some s) true now jobId resumeId redirectUrl store).2).2.length =
      store.length + 2 := by
  refine ⟨rfl, rfl, ?_, ?_⟩ <;> simp [logManualApplication]

/-! ## Claim C10: the skill count cache always equals the list length -/

/-- C10: every skill-category operation of the profile component (adding
a category, renaming it, replacing its list, adding a skill, removing a
skill, and the submit-time cleaning) preserves count = list.length. -/
theorem C10_skill_count_invariant (skills : List Skill) (h : skillInv skills)
    (i j : ℕ) (name : String) (v : List String) (sk : String) :
    skillInv (addSkillCategory skills) ∧
    skillInv (updateSkillCategoryCategory skills i name) ∧
    skillInv (updateSkillCategoryList skills i v) ∧
    skillInv (addSkillToCategory skills i sk) ∧
    skillInv (removeSkillFromCategory skills i j) ∧
    skillInv (cleanedSkills skills) := by
  refine ⟨?_, ?_, ?_, ?_, ?_, ?_⟩
  · intro s hs
    rcases List.mem_append.mp hs with h1 | h2
    · exact h s h1
    · simp only [List.mem_singleton] at h2
      subst h2
      rfl
  · exact skillInv_modifyAt (fun s hs => hs) h
  · exact skillInv_modifyAt (fun s _ => rfl) h
  · unfold addSkillToCategory
    split
    · exact h
    · exact skillInv_modifyAt (fun s _ => rfl) h
  · exact skillInv_modifyAt (fun s _ => rfl) h
  · intro s hs
    rcases List.mem_map.mp hs with ⟨t, _, rfl⟩
    rfl

/-- C10 witness at a concrete profile state. -/
theorem C10_skill_count_invariant_witness :
    skillInv (cleanedSkills [{ category := "Languages", count := 3, list := ["lean", "", "ts"] }]) ∧
    skillInv (addSkillToCategory [{ category := "Languages", count := 3, list := ["lean", "", "ts"] }] 0 " go ") :=
  ⟨(C10_skill_count_invariant [{ category := "Languages", count := 3, list := ["lean", "", "ts"] }]
      (by decide) 0 0 "Tools" ["docker"] " go ").2.2.2.2.2,
   (C10_skill_count_invariant [{ category := "Languages", count := 3, list := ["lean", "", "ts"] }]
      (by decide) 0 0 "Tools" ["docker"] " go ").2.2.2.1⟩

/-! ## Claim C2: precondition failures leave no auto_apply_logs row -/

/-- C2: whenever any precondition of the auto-apply handler fails (bad
body, missing or invalid auth, job not found, missing or incomplete
profile, resume not found or not owned by the caller), the handler
returns an error response and no auto_apply_logs row is created. -/
theorem C2_precondition_failure_no_rows (env : AAEnv)
    (h : preconditionsPass env = false) :
    (autoApply env).response.success = false ∧
    (autoApply env).response.statusCode = 500 ∧
    (autoApply env).response.error.isSome = true ∧
    (autoApply env).inserted = none ∧
    (autoApply env).final = none := by
  cases hc : checkPreconditions env with
  | ok pd => simp [preconditionsPass, hc] at h
  | error m => simp [autoApply, hc, errResponse]

/-- C2 witness: a request with no authorization header. -/
theorem C2_precondition_failure_no_rows_witness :
    (autoApply envNoAuth).response.success = false ∧
    (autoApply envNoAuth).response.statusCode = 500 ∧
    (autoApply envNoAuth).response.error.isSome = true ∧
    (autoApply envNoAuth).inserted = none ∧
    (autoApply envNoAuth).final = none :=
  C2_precondition_failure_no_rows envNoAuth rfl

/-! ## Claim C1: the stored status after a completed invocation -/

/-- C1 counterexample: an invocation that passes every precondition,
whose simulated submission succeeds, but whose final status-update write
fails, returns normally while its stored auto_apply_logs row still has
status pending — the claim says the stored status is then terminal. -/
theorem C1_stored_pending_counterexample :
    preconditionsPass c1Env = true ∧
    c1Env.updateOk = false ∧
    (autoApply c1Env).final.map (fun e => e.status) = some "pending" ∧
    (autoApply c1Env).response.status = some "submitted" := by
  exact ⟨rfl, rfl, rfl, rfl⟩

/-- C1 (corrected): past the preconditions and with a successful pending
insert, exactly one log row is created and the status returned to the
caller is terminal; the stored status is terminal when the final
status-update write succeeds, but remains pending when that write fails
(the failure is only logged). -/
theorem C1_terminal_status_amended (env : AAEnv)
    (hpass : preconditionsPass env = true) (hins : env.insertOk = true) :
    (∃ e, (autoApply env).inserted = some e ∧ e.status = "pending") ∧
    ((autoApply env).response.status = some "submitted" ∨
      (autoApply env).response.status = some "failed") ∧
    (env.updateOk = true →
      ∃ e, (autoApply env).final = some e ∧
        (e.status = "submitted" ∨ e.status = "failed")) ∧
    (env.updateOk = false →
      ∃ e, (autoApply env).final = some e ∧ e.status = "pending") := by
  cases hc : checkPreconditions env with
  | error m => simp [preconditionsPass, hc] at hpass
  | ok pd =>
    simp only [autoApply, hc]
    cases hs : env.applySuccess <;> cases hu : env.updateOk <;>
      simp [afterInsert, hins, hs, hu]

/-- C1 witness at the healthy environment. -/
theorem C1_terminal_status_witness :
    ∃ e, (autoApply baseEnv).final = some e ∧
      (e.status = "submitted" ∨ e.status = "failed") :=
  (C1_terminal_status_amended baseEnv rfl rfl).2.2.1 rfl

/-! ## Claim C6: the failure branch -/

/-- C6 counterexample: when the simulated submission reports failure and
the status-update write also fails, the stored row keeps status pending,
so the log entry does not carry the terminal status failed that the
claim asserts. -/
theorem C6_failed_update_counterexample :
    preconditionsPass c6Env = true ∧
    c6Env.applySuccess = false ∧
    (autoApply c6Env).final.map (fun e => e.status) = some "pending" ∧
    (autoApply c6Env).final.map (fun e => e.status) ≠ some "failed" := by
  refine ⟨rfl, rfl, rfl, ?_⟩
  decide

/-- C6 (corrected): when the simulated submission reports failure, the
returned result has success false, carries fallbackUrl equal to the
target job's application_link and an error message, and the workflow
updates the stored row to failed whenever the status-update write
succeeds (the row stays pending when that write fails). -/
theorem C6_failure_fallback_amended (env : AAEnv) (pd : AAPassData)
    (hc : checkPreconditions env = .ok pd) (hins : env.insertOk = true)
    (hfail : env.applySuccess = false) :
    (autoApply env).response.success = false ∧
    (autoApply env).response.fallbackUrl = some pd.job.application_link ∧
    (autoApply env).response.error = some simFailureMsg ∧
    (autoApply env).response.status = some "failed" ∧
    (env.updateOk = true →
      ∃ e, (autoApply env).final = some e ∧ e.status = "failed" ∧
        e.error_message = some simFailureMsg) ∧
    (env.updateOk = false →
      ∃ e, (autoApply env).final = some e ∧ e.status = "pending") := by
  simp only [autoApply, hc]
  cases hu : env.updateOk <;> simp [afterInsert, hins, hfail, hu]

/-- C6 witness: a failing submission with healthy writes. -/
theorem C6_failure_fallback_witness :
    (autoApply c6wEnv).response.success = false ∧
    (autoApply c6wEnv).response.fallbackUrl = some exJob.application_link :=
  ⟨(C6_failure_fallback_amended c6wEnv exPassData rfl rfl rfl).1,
   (C6_failure_fallback_amended c6wEnv exPassData rfl rfl rfl).2.1⟩

/-! ## Claim C8: status updates never rewrite the snapshot or identity -/

/-- C8: whatever a single invocation does to its auto_apply_logs row
after inserting it, the form_data_snapshot and the identity fields (user
id, job id, resume id, application date) of the final stored row are
those of the inserted row; only status and the outcome fields change. -/
theorem C8_updates_only_status_and_outcome (env : AAEnv) (e f : AALogEntry)
    (hi : (autoApply env).inserted = some e)
    (hf : (autoApply env).final = some f) :
    f.form_data_snapshot = e.form_data_snapshot ∧
    f.user_id = e.user_id ∧
    f.job_listing_id = e.job_listing_id ∧
    f.optimized_resume_id = e.optimized_resume_id ∧
    f.application_date = e.application_date := by
  cases hc : checkPreconditions env with
  | error m => simp [autoApply, hc] at hi
  | ok pd =>
    simp only [autoApply, hc] at hi hf
    cases hins : env.insertOk <;> cases hs : env.applySuccess <;>
        cases hu : env.updateOk <;>
        simp [afterInsert, hins, hs, hu] at hi hf <;>
      (subst hi; subst hf; exact ⟨rfl, rfl, rfl, rfl, rfl⟩)

/-- C8 witness at the healthy environment. -/
theorem C8_updates_only_status_and_outcome_witness :
    exSubmittedEntry.form_data_snapshot = exPendingEntry.form_data_snapshot ∧
    exSubmittedEntry.user_id = exPendingEntry.user_id ∧
    exSubmittedEntry.job_listing_id = exPendingEntry.job_listing_id ∧
    exSubmittedEntry.optimized_resume_id = exPendingEntry.optimized_resume_id ∧
    exSubmittedEntry.application_date = exPendingEntry.application_date :=
  C8_updates_only_status_and_outcome baseEnv exPendingEntry exSubmittedEntry rfl rfl

/-! ## Claim C5: admin job intake validation and defaults -/

/-- C5: the admin job intake (jobListingSchema validation followed by
createJobListing) rejects a missing application_link with a field-level
error naming that field and inserts no row; an intake that passes
validation has every required field present and non-empty, a positive
package_amount when provided and well-formed URLs when provided; and a
successfully inserted row has posted_date = submission time,
source_api = manual_admin and is_active = true unless explicitly set
false. -/
theorem C5_create_job_listing_validation (isUrl : String → Bool)
    (session : Option Session) (now : String) (dbOk : Bool)
    (d : JobIntake) (store : List JobRow) :
    (d.application_link = none →
      ("application_link", "Required") ∈ validateJobListing isUrl d ∧
      (submitJobListing isUrl session now dbOk d store).1 =
        .error (.validation (validateJobListing isUrl d)) ∧
      (submitJobListing isUrl session now dbOk d store).2 = store) ∧
    (validateJobListing isUrl d = [] →
      (∃ s, d.company_name = some s ∧ 1 ≤ s.length) ∧
      (∃ s, d.role_title = some s ∧ 1 ≤ s.length) ∧
      (∃ s, d.domain = some s ∧ 1 ≤ s.length) ∧
      (∃ s, d.location_type = some s ∧
        (["Remote", "Onsite", "Hybrid"] : List String).contains s = true) ∧
      (∃ s, d.experience_required = some s ∧ 1 ≤ s.length) ∧
      (∃ s, d.qualification = some s ∧ 1 ≤ s.length) ∧
      (∃ s, d.short_description = some s ∧ 50 ≤ s.length) ∧
      (∃ s, d.full_description = some s ∧ 100 ≤ s.length) ∧
      (∃ s, d.application_link = some s ∧ isUrl s = true) ∧
      (∀ a, d.package_amount = some a → 0 < a) ∧
      (∀ s, d.company_logo_url = some s → s = "" ∨ isUrl s = true)) ∧
    (∀ row, (submitJobListing isUrl session now dbOk d store).1 = .ok row →
      row.posted_date = now ∧ row.source_api = "manual_admin" ∧
      row.is_active = d.is_active.getD true ∧
      (submitJobListing isUrl session now dbOk d store).2 = store ++ [row]) := by
  refine ⟨?_, ?_, ?_⟩
  · intro h
    have hmem : ("application_link", "Required") ∈ validateJobListing isUrl d := by
      simp [validateJobListing, reqUrl, h]
    have hne : validateJobListing isUrl d ≠ [] := List.ne_nil_of_mem hmem
    refine ⟨hmem, ?_, ?_⟩ <;> simp [submitJobListing, hne]
  · intro hv
    have h2 := hv
    simp only [validateJobListing, List.append_eq_nil] at h2
    obtain ⟨⟨⟨⟨⟨⟨⟨⟨⟨⟨⟨h_cn, h_logo⟩, h_rt⟩, h_pkg⟩, h_ptype⟩, h_dom⟩, h_loc⟩,
      h_exp⟩, h_qual⟩, h_sd⟩, h_fd⟩, h_al⟩ := h2
    exact ⟨reqStr_eq_nil h_cn, reqStr_eq_nil h_rt, reqStr_eq_nil h_dom,
      reqEnum_eq_nil h_loc, reqStr_eq_nil h_exp, reqStr_eq_nil h_qual,
      minLenStr_eq_nil h_sd, minLenStr_eq_nil h_fd, reqUrl_eq_nil h_al,
      optPos_eq_nil h_pkg, optUrl_eq_nil h_logo⟩
  · intro row hok
    by_cases he : validateJobListing isUrl d = []
    · simp only [submitJobListing, if_pos he] at hok ⊢
      unfold createJobListing at hok ⊢
      cases hreq : requiredFieldsTruthy (formToJobData d) with
      | false => simp [hreq] at hok
      | true =>
        cases session with
        | none => simp [hreq] at hok
        | some u =>
          cases hdb : dbOk with
          | false => simp [hreq, hdb] at hok
          | true =>
            simp only [hreq, Bool.not_true, Bool.false_eq_true, if_false, hdb,
              if_true] at hok ⊢
            cases hok
            exact ⟨rfl, rfl, by simp [formToJobData], rfl⟩
    · simp only [submitJobListing, if_neg he] at hok
      exact absurd hok (by simp)

/-- C5 witness: a concrete intake missing application_link is rejected
with a field error and no row, and the same intake with the link added
inserts a row carrying the defaults. -/
theorem C5_create_job_listing_validation_witness :
    ("application_link", "Required") ∈ validateJobListing exIsUrl exIntakeNoLink ∧
    (submitJobListing exIsUrl (some { userId := "admin" }) "2026-01-01T00:00:00Z" true
      exIntakeNoLink []).2 = ([] : List JobRow) :=
  ⟨((C5_create_job_listing_validation exIsUrl (some { userId := "admin" })
      "2026-01-01T00:00:00Z" true exIntakeNoLink []).1 rfl).1,
   ((C5_create_job_listing_validation exIsUrl (some { userId := "admin" })
      "2026-01-01T00:00:00Z" true exIntakeNoLink []).1 rfl).2.2⟩

/-! ## Claim C7: write operations and the session -/

/-- C7 counterexample: storeOptimizedResume performs its insert without
any session check, so with no session and a healthy database it still
returns ok and adds a row, rather than failing with an authentication
error and performing no write. -/
theorem C7_store_resume_without_session_counterexample :
    (storeOptimizedResume none true "opt1" 85 "user1" "job1" "resume data" []).1 =
      .ok "opt1" ∧
    (storeOptimizedResume none true "opt1" 85 "user1" "job1" "resume data" []).2.length = 1 :=
  ⟨rfl, rfl⟩

/-- C7 (corrected): manual application logging, client auto-apply and
job listing creation never write without a session — the first two fail
immediately, and createJobListing reports its missing-fields error first
but never reaches the insert and reports the authentication error once
the required fields are truthy; resume optimization recording
(storeOptimizedResume) checks no session and inserts regardless. -/
theorem C7_writes_require_session_amended (insertOk dbOk : Bool)
    (now jobId resumeId redirectUrl : String) (mstore : List ManualRow)
    (resp : AAResponse) (jobData : JobIntake) (jstore : List JobRow)
    (newId : String) (score : ℕ) (userId jId rData : String)
    (rstore : List StoredResumeRow) (hins : insertOk = true) :
    logManualApplication none insertOk now jobId resumeId redirectUrl mstore =
      (.error "Authentication required", mstore) ∧
    autoApplyForJob none resp = (.error "Auto-apply failed", false) ∧
    (createJobListing none now dbOk jobData jstore).2 = jstore ∧
    (∀ row, (createJobListing none now dbOk jobData jstore).1 ≠ .ok row) ∧
    (requiredFieldsTruthy jobData = true →
      (createJobListing none now dbOk jobData jstore).1 = .error .unauthenticated) ∧
    storeOptimizedResume none insertOk newId score userId jId rData rstore =
      (.ok newId,
        rstore ++ [{ id := newId, user_id := userId, job_listing_id := jId,
                     resume_content := rData,
                     pdf_url := "https://example.com/resumes/optimized_" ++ userId ++ "_" ++ jId ++ ".pdf",
                     docx_url := "https://example.com/resumes/optimized_" ++ userId ++ "_" ++ jId ++ ".docx",
                     optimization_score := score }]) := by
  refine ⟨rfl, rfl, ?_, ?_, ?_, ?_⟩
  · unfold createJobListing
    split
    · rfl
    · rfl
  · intro row
    unfold createJobListing
    split <;> simp
  · intro h
    simp [createJobListing, h]
  · simp [storeOptimizedResume, hins]

/-- C7 witness at concrete arguments. -/
theorem C7_writes_require_session_witness :
    logManualApplication none true "t0" "job1" "res1" "https://jobs.example.com/apply" [] =
      (.error "Authentication required", ([] : List ManualRow)) ∧
    autoApplyForJob none (errResponse "x") = (.error "Auto-apply failed", false) :=
  ⟨(C7_writes_require_session_amended true true "t0" "job1" "res1"
      "https://jobs.example.com/apply" [] (errResponse "x") exIntakeValid []
      "opt1" 80 "user2" "job2" "data" [] rfl).1,
   (C7_writes_require_session_amended true true "t0" "job1" "res1"
      "https://jobs.example.com/apply" [] (errResponse "x") exIntakeValid []
      "opt1" 80 "user2" "job2" "data" [] rfl).2.1⟩

end JobApp
